import Mathlib

/-!
Verification of the flight-physics core of the aerodynamic-lift simulator
(src/apps/Aerodynamic-lift-simulator).  The numeric state of the simulator
is embedded over ℚ: every constant in the source is an exact decimal, and
`Math.PI` is embedded as the decimal rendering of the IEEE-754 double the
JavaScript engine actually computes with, so all definitions stay
executable and decidable.  `Math.sqrt` (used only for the displayed
required-takeoff speed) has no exact rational counterpart; the claims under
study concern only its radicand and divisor, which are modelled directly.
-/

namespace AeroSim

/-- constants.ts: `GRAVITY`. -/
def GRAVITY : ℚ := 9.80665

/-- constants.ts: `SEA_LEVEL_AIR_DENSITY`. -/
def SEA_LEVEL_AIR_DENSITY : ℚ := 1.225

/-- Math.PI as the shortest decimal that denotes the IEEE-754 double used
by the JavaScript runtime. -/
def PI : ℚ := 3.141592653589793

/-- App.tsx line 34: `MAX_VELOCITY`. -/
def MAX_VELOCITY : ℚ := 650

/-- types.ts: `WingType`. -/
inductive WingType where
  | symmetric
  | cambered
  | flatBottom
  | thin
  | airbus
  | stealth
  deriving DecidableEq, Repr

/-- types.ts: `FlightParams`. -/
structure FlightParams where
  weight : ℚ
  wingSpan : ℚ
  chordLength : ℚ
  velocity : ℚ
  headWind : ℚ
  airDensity : ℚ
  angleOfAttack : ℚ
  wingType : WingType
  deriving DecidableEq, Repr

/-- App.tsx lines 10-19: the initial `params` state (the "airbus" preset). -/
def defaultParams : FlightParams :=
  { weight := 575000
    wingSpan := 79.75
    chordLength := 10.6
    velocity := 0
    headWind := 0
    airDensity := SEA_LEVEL_AIR_DENSITY
    angleOfAttack := 4
    wingType := .airbus }

/-- App.tsx lines 80-83: `currentAirDensity` (lapse-rate model, floored at 0.35). -/
def currentAirDensity (altitude : ℚ) : ℚ :=
  max 0.35 (SEA_LEVEL_AIR_DENSITY - altitude * 0.00008)

/-- App.tsx lines 90-94: the `baseCl` if-chain inside the `results` memo
(the default 0.45 covers `cambered` and `airbus`). -/
def baseCl (w : WingType) : ℚ :=
  match w with
  | .symmetric => 0.0
  | .flatBottom => 0.55
  | .thin => 0.15
  | .stealth => 0.12
  | _ => 0.45

/-- App.tsx lines 96-101: the lift coefficient `cl`: thin-airfoil slope plus
wing-type offset, post-stall factor above 16 degrees, floored at 0. -/
def liftCoefficient (p : FlightParams) : ℚ :=
  let aoaRad := p.angleOfAttack * PI / 180
  let cl := 2 * PI * aoaRad + baseCl p.wingType
  let cl := if p.angleOfAttack > 16 then cl * max 0 (1 - (p.angleOfAttack - 16) * 0.2) else cl
  max 0 cl

/-- types.ts: `SimulationResults`.  `requiredTakeoffSpeed` applies
`Math.sqrt`; its radicand is modelled separately as
`requiredTakeoffRadicand` since ℚ carries no square root. -/
structure SimulationResults where
  liftForce : ℚ
  dragForce : ℚ
  isFlying : Bool
  pressureTop : ℚ
  pressureBottom : ℚ
  velocityTop : ℚ
  velocityBottom : ℚ
  altitude : ℚ
  deriving DecidableEq, Repr

/-- App.tsx lines 85-118: the `results` memo (instantaneous aerodynamic model). -/
def computeResults (p : FlightParams) (ρ altitude : ℚ) : SimulationResults :=
  let s := p.wingSpan * p.chordLength
  let totalAirspeed := p.velocity + p.headWind
  let cl := liftCoefficient p
  let liftForce := 0.5 * ρ * totalAirspeed ^ 2 * s * cl
  let weightForce := p.weight * GRAVITY
  { liftForce := liftForce
    dragForce := liftForce * (if totalAirspeed > 250 then 0.15 else 0.05)
    isFlying := decide (liftForce > weightForce) && decide (totalAirspeed > 25)
    pressureTop := -0.5 * ρ * ((totalAirspeed * 1.2) ^ 2 - totalAirspeed ^ 2)
    pressureBottom := -0.5 * ρ * ((totalAirspeed * 0.8) ^ 2 - totalAirspeed ^ 2)
    velocityTop := totalAirspeed * 1.2
    velocityBottom := totalAirspeed * 0.8
    altitude := altitude }

/-- App.tsx line 105: the argument of `Math.sqrt` in `requiredTakeoffSpeed`
(`(2 * weightForce) / (currentAirDensity * s * Math.max(0.1, cl))`). -/
def requiredTakeoffRadicand (p : FlightParams) (ρ : ℚ) : ℚ :=
  (2 * (p.weight * GRAVITY)) / (ρ * (p.wingSpan * p.chordLength) * max 0.1 (liftCoefficient p))

/-- StatsDashboard.tsx line 53: the displayed load factor
`results.liftForce / (params.weight * 9.81)`. -/
def loadFactor (p : FlightParams) (r : SimulationResults) : ℚ :=
  r.liftForce / (p.weight * 9.81)

/-- StatsDashboard.tsx lines 12-34: the `lift` value of one sample of
`generateChartData` at sampled velocity `v` (before `Math.round`).  The
base-coefficient if-chain is the same chain as in the App memo, hence
`baseCl`; note the post-stall slope here is 0.15, and the floor at 0 is
applied inside the lift product. -/
def dashboardLift (p : FlightParams) (v : ℚ) : ℚ :=
  let s := p.wingSpan * p.chordLength
  let aoaRad := p.angleOfAttack * PI / 180
  let cl := 2 * PI * aoaRad + baseCl p.wingType
  let cl := if p.angleOfAttack > 16 then cl * max 0 (1 - (p.angleOfAttack - 16) * 0.15) else cl
  0.5 * p.airDensity * (v + p.headWind) ^ 2 * s * max 0 cl

/-- The three autopilot mode flags of App.tsx
(`autoThrottle`, `isAltHold`, `isLanding`). -/
structure ModeState where
  autoThrottle : Bool
  isAltHold : Bool
  isLanding : Bool
  deriving DecidableEq, Repr

/-- App.tsx lines 228-233: `toggleLanding` (guarded no-op when not flying on
the ground; turning landing on clears the other two flags). -/
def toggleLanding (isFlying : Bool) (altitude : ℚ) (m : ModeState) : ModeState :=
  if ¬isFlying = true ∧ altitude ≤ 0 then m
  else
    { isLanding := !m.isLanding
      isAltHold := if m.isAltHold then false else m.isAltHold
      autoThrottle := if m.autoThrottle then false else m.autoThrottle }

/-- App.tsx lines 235-239: `toggleAutoV` (auto-mission toggle; clears landing,
and clears altitude hold when switching auto-mission on). -/
def toggleAutoV (m : ModeState) : ModeState :=
  { autoThrottle := !m.autoThrottle
    isLanding := if m.isLanding then false else m.isLanding
    isAltHold := if !m.autoThrottle then false else m.isAltHold }

/-- App.tsx line 432: the altitude-hold button
(`onClick={() => setIsAltHold(!isAltHold)}` with
`disabled={isLanding || autoThrottle}`); the disabled attribute is the guard. -/
def toggleAltHold (m : ModeState) : ModeState :=
  if m.isLanding || m.autoThrottle then m
  else { m with isAltHold := !m.isAltHold }

/-- The three user-facing mode-toggle actions. -/
inductive ModeToggle where
  | landing
  | autoV
  | altHold
  deriving DecidableEq, Repr

/-- Dispatch of a mode toggle onto the mode flags. -/
def applyToggle (t : ModeToggle) (isFlying : Bool) (altitude : ℚ) (m : ModeState) : ModeState :=
  match t with
  | .landing => toggleLanding isFlying altitude m
  | .autoV => toggleAutoV m
  | .altHold => toggleAltHold m

/-- The flag owned by a given toggle. -/
def modeFlag (t : ModeToggle) (m : ModeState) : Bool :=
  match t with
  | .landing => m.isLanding
  | .autoV => m.autoThrottle
  | .altHold => m.isAltHold

/-- The two modes other than `t` are inactive. -/
def othersInactive (t : ModeToggle) (m : ModeState) : Prop :=
  match t with
  | .landing => m.autoThrottle = false ∧ m.isAltHold = false
  | .autoV => m.isLanding = false ∧ m.isAltHold = false
  | .altHold => m.isLanding = false ∧ m.autoThrottle = false

instance (t : ModeToggle) (m : ModeState) : Decidable (othersInactive t m) := by
  cases t <;> exact instDecidableAnd

/-- App.tsx lines 149-158: the altitude-hold branch of the render loop
(body of the inner `totalAirspeed > 10` guard; `weightForce` is
`params.weight * GRAVITY` computed at line 128, `ρ` is `currentAirDensity`). -/
def altHoldAdjust (ρ : ℚ) (p : FlightParams) : FlightParams :=
  let totalAirspeed := p.velocity + p.headWind
  if totalAirspeed > 10 then
    let s := p.wingSpan * p.chordLength
    let weightForce := p.weight * GRAVITY
    let targetCl := weightForce / (0.5 * ρ * totalAirspeed ^ 2 * s)
    let targetAoADeg := ((targetCl - (if p.wingType = .airbus then 0.45 else 0.2)) / (2 * PI)) * (180 / PI)
    let clampedAoA := min 15 (max (-5) targetAoADeg)
    { p with angleOfAttack := p.angleOfAttack + (clampedAoA - p.angleOfAttack) * 0.02 }
  else p

/-- App.tsx lines 160-191: the autoland branch of the render loop.  Returns
the updated params, the landing status string, and the `isLanding` flag
(which was necessarily `true` on entry). -/
def landingAdjust (altitude liftForce weightForce massDamping : ℚ)
    (p : FlightParams) : FlightParams × String × Bool :=
  let targetApproachSpeed : ℚ := 75
  let targetDescentRate : ℚ := if altitude > 50 then -6 else -2
  let currentVSI := (liftForce - weightForce) / massDamping
  let nextVel :=
    if p.velocity > targetApproachSpeed + 2 then p.velocity - 0.4
    else if p.velocity < targetApproachSpeed - 2 then p.velocity + 0.4
    else p.velocity
  if altitude > 15 then
    let nextAoA := p.angleOfAttack + (targetDescentRate - currentVSI) * 0.08
    ({ p with velocity := nextVel, angleOfAttack := max (-2) (min 15 nextAoA) },
      "GLIDESLOPE INTERCEPT", true)
  else if altitude > 0.5 then
    let nextAoA := p.angleOfAttack + (8.5 - p.angleOfAttack) * 0.1
    ({ p with velocity := nextVel * 0.99, angleOfAttack := max (-2) (min 15 nextAoA) },
      "FLARE / REDUCE THRUST", true)
  else
    let nextVel2 := max 0 (nextVel - 2.5)
    ({ p with velocity := nextVel2, angleOfAttack := max (-2) (min 15 2) },
      if nextVel2 = 0 then "" else "TOUCHDOWN / BRAKING",
      if nextVel2 = 0 then false else true)

/-- App.tsx lines 201-226: the body of the 50 ms auto-mission interval.
Returns the updated params together with the new `isAltHold` flag
(`setIsAltHold` is called in the climb and cruise branches only). -/
def autoMissionTick (isFlying : Bool) (altitude : ℚ) (p : FlightParams)
    (isAltHold : Bool) : FlightParams × Bool :=
  let targetCruiseSpeed : ℚ := 700 / 3.6
  let targetClimbAltitude : ℚ := 10000
  if altitude < 50 then
    let nextVel := min (p.velocity + 1.5) MAX_VELOCITY
    let nextAoA := if isFlying then 12 else p.angleOfAttack
    ({ p with velocity := nextVel, angleOfAttack := nextAoA }, isAltHold)
  else if altitude < targetClimbAltitude - 100 then
    let nextVel := if p.velocity < targetCruiseSpeed then p.velocity + 1.0 else p.velocity
    ({ p with velocity := nextVel, angleOfAttack := 12 }, false)
  else
    ({ p with velocity := p.velocity + (targetCruiseSpeed - p.velocity) * 0.1 }, true)

/-- App.tsx lines 133-139: the `setAltitude` updater of the render loop. -/
def updateAltitude (autoThrottle : Bool) (altitude climbRate dt : ℚ) : ℚ :=
  let next := altitude + climbRate * dt
  if next ≤ 0 then 0
  else if next ≥ 10000 ∧ autoThrottle = true then 10000
  else next

/-- The mutable simulation state of App.tsx (params plus the session state
and mode flags). -/
structure SimState where
  params : FlightParams
  altitude : ℚ
  distance : ℚ
  flightTime : ℚ
  autoThrottle : Bool
  isAltHold : Bool
  isLanding : Bool
  landingStatus : String
  deriving DecidableEq, Repr

/-- App.tsx lines 120-196: one un-paused pass of the render loop `loop` with
elapsed time `dt`: base integration of altitude, distance and flight time,
then the altitude-hold branch, then the autoland branch (both `setParams`
updaters compose functionally, and the guards make them disjoint). -/
def loopTick (dt : ℚ) (st : SimState) : SimState :=
  let ρ := currentAirDensity st.altitude
  let r := computeResults st.params ρ st.altitude
  let weightForce := st.params.weight * GRAVITY
  let netForce := r.liftForce - weightForce
  let massDamping := max 10000 (st.params.weight / 25)
  let climbRate := netForce / massDamping
  let altitude1 := updateAltitude st.autoThrottle st.altitude climbRate dt
  let distance1 := st.distance + st.params.velocity * dt
  let flightTime1 := if st.params.velocity > 0 ∨ r.isFlying = true then st.flightTime + dt else st.flightTime
  let params1 := if st.isAltHold && !st.isLanding && r.isFlying then altHoldAdjust ρ st.params else st.params
  let step2 := if st.isLanding then landingAdjust st.altitude r.liftForce weightForce massDamping params1
    else (params1, st.landingStatus, st.isLanding)
  { st with
    params := step2.1
    altitude := altitude1
    distance := distance1
    flightTime := flightTime1
    landingStatus := step2.2.1
    isLanding := step2.2.2 }

/-- App.tsx lines 241-250: `resetStats` (note it spreads the previous params:
only `velocity` and `angleOfAttack` are overwritten). -/
def resetStats (st : SimState) : SimState :=
  { st with
    distance := 0
    flightTime := 0
    altitude := 0
    params := { st.params with velocity := 0, angleOfAttack := 4 }
    isLanding := false
    autoThrottle := false
    isAltHold := false }

/-! ## Concrete states used by witnesses and counterexamples -/

/-- A symmetric-wing state whose weight makes the altitude-hold target lift
coefficient exactly 1/2 (weight * GRAVITY = 4900 and the dynamic-pressure
denominator is 9800). -/
def pAltHoldS : FlightParams :=
  { weight := 490000000 / 980665
    wingSpan := 10
    chordLength := 1
    velocity := 40
    headWind := 0
    airDensity := SEA_LEVEL_AIR_DENSITY
    angleOfAttack := 6
    wingType := .symmetric }

/-- Simulation state with altitude hold engaged on `pAltHoldS`. -/
def stAltHoldS : SimState :=
  { params := pAltHoldS
    altitude := 0
    distance := 0
    flightTime := 0
    autoThrottle := false
    isAltHold := true
    isLanding := false
    landingStatus := "" }

/-- Airbus preset pushed past the stall angle. -/
def pStall : FlightParams := { defaultParams with angleOfAttack := 18 }

/-- Airbus preset rolling at 1 m/s (touchdown input). -/
def pLand : FlightParams := { defaultParams with velocity := 1 }

/-- Airbus preset with a user-entered weight of 0. -/
def pZeroWeight : FlightParams := { defaultParams with weight := 0 }

/-- Airbus preset with a user-entered wing span of 0, moving at 40 m/s. -/
def pZeroSpan : FlightParams := { defaultParams with wingSpan := 0, velocity := 40 }

/-- The F-16 preset of the wing-profile buttons (App.tsx line 276). -/
def pThin : FlightParams :=
  { weight := 12000
    wingSpan := 9.96
    chordLength := 3.5
    velocity := 120
    headWind := 0
    airDensity := SEA_LEVEL_AIR_DENSITY
    angleOfAttack := 4
    wingType := .thin }

/-- A session on the F-16 preset with some accumulated state. -/
def stThin : SimState :=
  { params := pThin
    altitude := 1000
    distance := 5000
    flightTime := 90
    autoThrottle := true
    isAltHold := false
    isLanding := false
    landingStatus := "" }

/-! ## Claims -/

/-- Single-toggle activation lemma: a toggle that switches its own mode from
inactive to active leaves the other two modes inactive. -/
theorem toggle_activation_exclusive (t : ModeToggle) (f : Bool) (a : ℚ) (m : ModeState) :
    modeFlag t m = false → modeFlag t (applyToggle t f a m) = true →
    othersInactive t (applyToggle t f a m) := by
  rcases m with ⟨b1, b2, b3⟩
  cases t <;>
    simp only [applyToggle, toggleLanding, toggleAutoV, toggleAltHold, modeFlag,
      othersInactive] <;>
    cases b1 <;> cases b2 <;> cases b3 <;> intro h1 h2 <;>
    split_ifs at h2 ⊢ <;> simp_all

/-- C1: for every state of the three mode flags and every ordered pair of
mode toggles, each toggle that activates its mode leaves the other two
modes inactive immediately after that toggle. -/
theorem mode_toggle_mutual_exclusion (f1 f2 : Bool) (a1 a2 : ℚ) (m : ModeState)
    (t1 t2 : ModeToggle) :
    (modeFlag t1 m = false → modeFlag t1 (applyToggle t1 f1 a1 m) = true →
      othersInactive t1 (applyToggle t1 f1 a1 m)) ∧
    (modeFlag t2 (applyToggle t1 f1 a1 m) = false →
      modeFlag t2 (applyToggle t2 f2 a2 (applyToggle t1 f1 a1 m)) = true →
      othersInactive t2 (applyToggle t2 f2 a2 (applyToggle t1 f1 a1 m))) :=
  ⟨toggle_activation_exclusive t1 f1 a1 m,
   toggle_activation_exclusive t2 f2 a2 (applyToggle t1 f1 a1 m)⟩

/-- Witness for C1: activating autoland and then auto-mission from the idle
flying state leaves the other modes inactive after each step. -/
theorem mode_toggle_mutual_exclusion_witness :
    othersInactive .landing (applyToggle .landing true 100 ⟨false, false, false⟩) ∧
    othersInactive .autoV
      (applyToggle .autoV true 100 (applyToggle .landing true 100 ⟨false, false, false⟩)) := by
  have h := mode_toggle_mutual_exclusion true true 100 100 ⟨false, false, false⟩ .landing .autoV
  exact ⟨h.1 (by decide) (by decide), h.2 (by decide) (by decide)⟩

/-- C2: on an autoland tick with altitude at most 0.5 m, the angle of attack
snaps to 2 degrees, the velocity (after the ±0.4 m/s correction toward the
75 m/s approach target) decreases by exactly 2.5 m/s floored at 0, and in
the tick in which it reaches 0 the landing flag and status string clear. -/
theorem autoland_touchdown (alt lift wf md : ℚ) (p : FlightParams) (h : alt ≤ 0.5) :
    (landingAdjust alt lift wf md p).1.angleOfAttack = 2 ∧
    (landingAdjust alt lift wf md p).1.velocity =
      max 0 ((if p.velocity > 77 then p.velocity - 0.4
              else if p.velocity < 73 then p.velocity + 0.4 else p.velocity) - 2.5) ∧
    ((landingAdjust alt lift wf md p).1.velocity = 0 →
      (landingAdjust alt lift wf md p).2.2 = false ∧
      (landingAdjust alt lift wf md p).2.1 = "") := by
  have h1 : ¬ alt > 15 := by
    intro hc
    have : (0.5:ℚ) < 15 := by norm_num
    linarith
  have h2 : ¬ alt > 0.5 := not_lt.mpr h
  unfold landingAdjust
  rw [if_neg h1, if_neg h2]
  refine ⟨by norm_num, by norm_num, ?_⟩
  intro hv
  simp only at hv ⊢
  rw [if_pos hv, if_pos hv]
  exact ⟨rfl, rfl⟩

/-- Witness for C2: touchdown from 1 m/s zeroes the velocity and clears the
landing mode and status in the same tick. -/
theorem autoland_touchdown_witness :
    (landingAdjust 0 0 (575000 * GRAVITY) (max 10000 (575000 / 25)) pLand).1.angleOfAttack = 2 ∧
    (landingAdjust 0 0 (575000 * GRAVITY) (max 10000 (575000 / 25)) pLand).1.velocity =
      max 0 ((if pLand.velocity > 77 then pLand.velocity - 0.4
              else if pLand.velocity < 73 then pLand.velocity + 0.4 else pLand.velocity) - 2.5) ∧
    (landingAdjust 0 0 (575000 * GRAVITY) (max 10000 (575000 / 25)) pLand).2.2 = false ∧
    (landingAdjust 0 0 (575000 * GRAVITY) (max 10000 (575000 / 25)) pLand).2.1 = "" := by
  have h := autoland_touchdown 0 0 (575000 * GRAVITY) (max 10000 (575000 / 25)) pLand
    (by norm_num)
  have hv : (landingAdjust 0 0 (575000 * GRAVITY) (max 10000 (575000 / 25)) pLand).1.velocity
      = 0 := by
    rw [h.2.1]
    norm_num [pLand, defaultParams, max_def]
  exact ⟨h.1, h.2.1, (h.2.2 hv).1, (h.2.2 hv).2⟩

/-- C4: for every elapsed time dt ≥ 0, climb rate and starting altitude ≥ 0,
the altitude after the integration step is nonnegative, and the update is
max(0, altitude + climbRate·dt), additionally clamped to 10000 m when the
auto-mission mode is active. -/
theorem altitude_never_negative (auto : Bool) (alt rate dt : ℚ)
    (hdt : 0 ≤ dt) (halt : 0 ≤ alt) :
    0 ≤ updateAltitude auto alt rate dt ∧
    updateAltitude auto alt rate dt =
      (if auto = true then min 10000 (max 0 (alt + rate * dt))
       else max 0 (alt + rate * dt)) := by
  constructor
  · simp only [updateAltitude]
    split_ifs <;> linarith
  · simp only [updateAltitude, max_def, min_def]
    cases auto <;> split_ifs <;> try simp_all
    all_goals linarith

/-- Witness for C4: a descending step from the ground clamps at 0. -/
theorem altitude_never_negative_witness :
    0 ≤ updateAltitude true 0 (-5) 1 ∧
    updateAltitude true 0 (-5) 1 =
      (if true = true then min 10000 (max 0 ((0:ℚ) + (-5) * 1))
       else max 0 ((0:ℚ) + (-5) * 1)) :=
  altitude_never_negative true 0 (-5) 1 (by norm_num) (by norm_num)

/-- C9 counterexample: reset after selecting the F-16 preset does not restore
the default airbus weight or wing type, refuting the claim that reset
restores the remaining FlightParameters to the "airbus" preset. -/
theorem reset_restores_defaults_counterexample :
    (resetStats stThin).params.weight ≠ defaultParams.weight ∧
    (resetStats stThin).params.wingType ≠ defaultParams.wingType := by
  constructor
  · show (12000:ℚ) ≠ 575000
    norm_num
  · show WingType.thin ≠ WingType.airbus
    intro hc
    cases hc

/-- C9 (amended): reset zeroes distance, flight time, altitude and velocity,
sets the angle of attack to 4 degrees and clears all three mode flags, while
leaving weight, wing span, chord length, head wind and wing type unchanged. -/
theorem reset_round_trip (st : SimState) :
    (resetStats st).distance = 0 ∧ (resetStats st).flightTime = 0 ∧
    (resetStats st).altitude = 0 ∧ (resetStats st).params.velocity = 0 ∧
    (resetStats st).params.angleOfAttack = 4 ∧ (resetStats st).isLanding = false ∧
    (resetStats st).autoThrottle = false ∧ (resetStats st).isAltHold = false ∧
    (resetStats st).params.weight = st.params.weight ∧
    (resetStats st).params.wingSpan = st.params.wingSpan ∧
    (resetStats st).params.chordLength = st.params.chordLength ∧
    (resetStats st).params.headWind = st.params.headWind ∧
    (resetStats st).params.wingType = st.params.wingType :=
  ⟨rfl, rfl, rfl, rfl, rfl, rfl, rfl, rfl, rfl, rfl, rfl, rfl, rfl⟩

/-- C10: every autopilot parameter update leaves weight, wing span, chord
length, head wind, stored air density and wing type unchanged; the
altitude-hold tick additionally leaves velocity unchanged (it modifies only
the angle of attack), and the autoland and auto-mission ticks modify only
velocity and angle of attack. -/
theorem autopilot_frame_condition (ρ alt lift wf md : ℚ) (p : FlightParams)
    (isF hold : Bool) :
    ((altHoldAdjust ρ p).weight = p.weight ∧ (altHoldAdjust ρ p).wingSpan = p.wingSpan ∧
     (altHoldAdjust ρ p).chordLength = p.chordLength ∧
     (altHoldAdjust ρ p).headWind = p.headWind ∧
     (altHoldAdjust ρ p).airDensity = p.airDensity ∧
     (altHoldAdjust ρ p).wingType = p.wingType ∧
     (altHoldAdjust ρ p).velocity = p.velocity) ∧
    ((landingAdjust alt lift wf md p).1.weight = p.weight ∧
     (landingAdjust alt lift wf md p).1.wingSpan = p.wingSpan ∧
     (landingAdjust alt lift wf md p).1.chordLength = p.chordLength ∧
     (landingAdjust alt lift wf md p).1.headWind = p.headWind ∧
     (landingAdjust alt lift wf md p).1.airDensity = p.airDensity ∧
     (landingAdjust alt lift wf md p).1.wingType = p.wingType) ∧
    ((autoMissionTick isF alt p hold).1.weight = p.weight ∧
     (autoMissionTick isF alt p hold).1.wingSpan = p.wingSpan ∧
     (autoMissionTick isF alt p hold).1.chordLength = p.chordLength ∧
     (autoMissionTick isF alt p hold).1.headWind = p.headWind ∧
     (autoMissionTick isF alt p hold).1.airDensity = p.airDensity ∧
     (autoMissionTick isF alt p hold).1.wingType = p.wingType) := by
  refine ⟨?_, ?_, ?_⟩
  · simp only [altHoldAdjust]
    split_ifs <;> exact ⟨rfl, rfl, rfl, rfl, rfl, rfl, rfl⟩
  · simp only [landingAdjust]
    split_ifs <;> exact ⟨rfl, rfl, rfl, rfl, rfl, rfl⟩
  · simp only [autoMissionTick]
    split_ifs <;> exact ⟨rfl, rfl, rfl, rfl, rfl, rfl⟩

/-- C5 counterexample: with the angle of attack at 18 degrees (past stall)
the dashboard sample at v = 50 differs from the lift force of the model at the
same parameters and the same air density, because the dashboard applies a
post-stall slope of 0.15 where the model applies 0.2; this refutes the
claimed equality of the two curves. -/
theorem dashboard_refinement_counterexample :
    pStall.angleOfAttack > 16 ∧
    dashboardLift pStall 50 ≠
      (computeResults { pStall with velocity := 50 } pStall.airDensity 0).liftForce := by
  constructor
  · norm_num [pStall, defaultParams]
  · norm_num [dashboardLift, computeResults, liftCoefficient, pStall, defaultParams,
      baseCl, SEA_LEVEL_AIR_DENSITY, PI, max_def]

/-- C5 (amended): for every parameter value with angle of attack at most 16
degrees (no post-stall correction) and every velocity, the unrounded
dashboard lift sample equals the lift force of the model for the same parameters
with that velocity, evaluated at the stored air density of the dashboard. -/
theorem dashboard_model_refinement (p : FlightParams) (v : ℚ)
    (h : p.angleOfAttack ≤ 16) :
    dashboardLift p v =
      (computeResults { p with velocity := v } p.airDensity 0).liftForce := by
  have hng : ¬ p.angleOfAttack > 16 := not_lt.mpr h
  simp only [dashboardLift, computeResults, liftCoefficient]
  rw [if_neg hng, if_neg hng]

/-- Witness for C5: the default airbus preset at 4 degrees, sampled at 100. -/
theorem dashboard_model_refinement_witness :
    dashboardLift defaultParams 100 =
      (computeResults { defaultParams with velocity := 100 }
        defaultParams.airDensity 0).liftForce :=
  dashboard_model_refinement defaultParams 100 (by norm_num [defaultParams])

/-- C6 counterexample: user-entered zero weight makes the load-factor
denominator zero, and user-entered zero wing span makes the
requiredTakeoffSpeed and altitude-hold target-lift-coefficient denominators
zero (even with airspeed above the 10 m/s guard), refuting the claim that
every denominator is floored or guarded for every reachable input. -/
theorem division_guard_counterexample :
    pZeroWeight.weight * 9.81 = 0 ∧
    currentAirDensity 0 * (pZeroSpan.wingSpan * pZeroSpan.chordLength) *
      max 0.1 (liftCoefficient pZeroSpan) = 0 ∧
    0.5 * currentAirDensity 0 * (pZeroSpan.velocity + pZeroSpan.headWind) ^ 2 *
      (pZeroSpan.wingSpan * pZeroSpan.chordLength) = 0 ∧
    pZeroSpan.velocity + pZeroSpan.headWind > 10 := by
  refine ⟨?_, ?_, ?_, ?_⟩ <;>
    norm_num [pZeroWeight, pZeroSpan, defaultParams]

/-- C6 (amended): the climb-rate denominator is always at least 10000 and
air density at least 0.35, and under the additional assumption that the
user-entered weight, wing span and chord length are positive, the
load-factor, requiredTakeoffSpeed and (given the airspeed > 10 guard)
altitude-hold target-Cl denominators are positive and the
requiredTakeoffSpeed radicand is nonnegative. -/
theorem division_guards (p : FlightParams) (alt : ℚ)
    (hw : 0 < p.weight) (hs : 0 < p.wingSpan) (hc : 0 < p.chordLength) :
    0 < p.weight * 9.81 ∧
    0 < currentAirDensity alt * (p.wingSpan * p.chordLength) *
      max 0.1 (liftCoefficient p) ∧
    (10 < p.velocity + p.headWind →
      0 < 0.5 * currentAirDensity alt * (p.velocity + p.headWind) ^ 2 *
        (p.wingSpan * p.chordLength)) ∧
    0 < max 10000 (p.weight / 25) ∧
    0 ≤ requiredTakeoffRadicand p (currentAirDensity alt) := by
  have hρ : (0:ℚ) < currentAirDensity alt :=
    lt_of_lt_of_le (by norm_num) (le_max_left _ _)
  have hcl : (0:ℚ) < max 0.1 (liftCoefficient p) :=
    lt_of_lt_of_le (by norm_num) (le_max_left _ _)
  have hs2 : (0:ℚ) < p.wingSpan * p.chordLength := mul_pos hs hc
  have hG : (0:ℚ) < GRAVITY := by norm_num [GRAVITY]
  refine ⟨mul_pos hw (by norm_num), mul_pos (mul_pos hρ hs2) hcl, ?_, ?_, ?_⟩
  · intro hv
    have hV : (0:ℚ) < p.velocity + p.headWind := by linarith
    exact mul_pos (mul_pos (mul_pos (by norm_num) hρ) (pow_pos hV 2)) hs2
  · exact lt_of_lt_of_le (by norm_num) (le_max_left _ _)
  · unfold requiredTakeoffRadicand
    exact div_nonneg (mul_nonneg (by norm_num) (le_of_lt (mul_pos hw hG)))
      (le_of_lt (mul_pos (mul_pos hρ hs2) hcl))

/-- The default preset moving at 50 m/s (used as a guard witness). -/
def pGuard : FlightParams := { defaultParams with velocity := 50 }

/-- Witness for C6: every guarded denominator is positive at the default
preset moving at 50 m/s. -/
theorem division_guards_witness :
    0 < pGuard.weight * 9.81 ∧
    0 < currentAirDensity 0 * (pGuard.wingSpan * pGuard.chordLength) *
      max 0.1 (liftCoefficient pGuard) ∧
    (10 < pGuard.velocity + pGuard.headWind →
      0 < 0.5 * currentAirDensity 0 * (pGuard.velocity + pGuard.headWind) ^ 2 *
        (pGuard.wingSpan * pGuard.chordLength)) ∧
    0 < max 10000 (pGuard.weight / 25) ∧
    0 ≤ requiredTakeoffRadicand pGuard (currentAirDensity 0) :=
  division_guards pGuard 0 (by norm_num [pGuard, defaultParams])
    (by norm_num [pGuard, defaultParams]) (by norm_num [pGuard, defaultParams])

/-- C7: each auto-mission tick follows the altitude-keyed phase logic:
below 50 m the velocity ramps by 1.5 capped at 650 and the angle of attack
is set to 12 degrees only once flying; between 50 m and 9900 m the velocity
ramps by 1.0 while below the 700 km/h cruise target, the angle of attack is
12 degrees and altitude hold is forced off; at or above 9900 m the velocity
moves 10 percent of the way toward the cruise target and altitude hold is
forced on. -/
theorem auto_mission_phases (isF hold : Bool) (alt : ℚ) (p : FlightParams) :
    (alt < 50 →
      ((autoMissionTick isF alt p hold).1.velocity ≤ MAX_VELOCITY ∧
       (p.velocity + 1.5 ≤ MAX_VELOCITY →
         (autoMissionTick isF alt p hold).1.velocity = p.velocity + 1.5) ∧
       (isF = true → (autoMissionTick isF alt p hold).1.angleOfAttack = 12) ∧
       (isF = false →
         (autoMissionTick isF alt p hold).1.angleOfAttack = p.angleOfAttack) ∧
       (autoMissionTick isF alt p hold).2 = hold)) ∧
    (50 ≤ alt → alt < 9900 →
      ((p.velocity < 700 / 3.6 →
         (autoMissionTick isF alt p hold).1.velocity = p.velocity + 1.0) ∧
       (autoMissionTick isF alt p hold).1.angleOfAttack = 12 ∧
       (autoMissionTick isF alt p hold).2 = false)) ∧
    (9900 ≤ alt →
      ((autoMissionTick isF alt p hold).1.velocity =
         p.velocity + (700 / 3.6 - p.velocity) * 0.1 ∧
       (autoMissionTick isF alt p hold).1.angleOfAttack = p.angleOfAttack ∧
       (autoMissionTick isF alt p hold).2 = true)) := by
  refine ⟨?_, ?_, ?_⟩
  · intro h
    simp only [autoMissionTick]
    rw [if_pos h]
    refine ⟨min_le_right _ _, fun hcap => min_eq_left hcap, ?_, ?_, rfl⟩
    · intro hf
      simp [hf]
    · intro hf
      simp [hf]
  · intro h1 h2
    simp only [autoMissionTick]
    rw [if_neg (by linarith), if_pos (by norm_num; linarith)]
    refine ⟨fun hv => by rw [if_pos hv], rfl, rfl⟩
  · intro h
    simp only [autoMissionTick]
    rw [if_neg (by linarith), if_neg (by norm_num; linarith)]
    exact ⟨rfl, rfl, rfl⟩

/-- The default preset at 100 m/s (climb-phase witness input). -/
def pClimb : FlightParams := { defaultParams with velocity := 100 }

/-- Witness for C7: a climb-phase tick at 5000 m adds 1 m/s, holds the angle
of attack at 12 degrees and forces altitude hold off. -/
theorem auto_mission_phases_witness :
    (autoMissionTick true 5000 pClimb true).1.velocity = pClimb.velocity + 1.0 ∧
    (autoMissionTick true 5000 pClimb true).1.angleOfAttack = 12 ∧
    (autoMissionTick true 5000 pClimb true).2 = false := by
  have h := (auto_mission_phases true true 5000 pClimb).2.1 (by norm_num) (by norm_num)
  exact ⟨h.1 (by norm_num [pClimb, defaultParams]), h.2.1, h.2.2⟩

/-- C3 (amended): on every tick in which altitude hold is active, autoland
is not active, the aircraft is flying and the total airspeed exceeds
10 m/s, the loop computes targetCl = weightForce / (0.5·ρ·V²·wingArea),
converts it to a target angle of attack using the offset 0.45 for the
airbus wing type and 0.2 for every other wing type, clamps the target to
[−5, 15] degrees, and moves the angle of attack 2 percent of the way toward
the clamped target. -/
theorem altitude_hold_control_law (dt : ℚ) (st : SimState)
    (h1 : st.isAltHold = true) (h2 : st.isLanding = false)
    (h3 : (computeResults st.params (currentAirDensity st.altitude) st.altitude).isFlying
      = true)
    (h4 : st.params.velocity + st.params.headWind > 10) :
    (loopTick dt st).params.angleOfAttack =
      st.params.angleOfAttack +
        (min 15 (max (-5)
          ((st.params.weight * GRAVITY /
              (0.5 * currentAirDensity st.altitude *
                (st.params.velocity + st.params.headWind) ^ 2 *
                (st.params.wingSpan * st.params.chordLength)) -
            (if st.params.wingType = .airbus then 0.45 else 0.2)) / (2 * PI) *
            (180 / PI))) -
          st.params.angleOfAttack) * 0.02 := by
  simp only [loopTick, h1, h2, h3, Bool.not_false, Bool.and_self, Bool.true_and,
    Bool.and_true, Bool.false_eq_true, if_true, if_false, altHoldAdjust]
  rw [if_pos h4]

/-- Witness for C3: the control law evaluated at the symmetric-wing flying
state `stAltHoldS`. -/
theorem altitude_hold_control_law_witness :
    (loopTick (1/60) stAltHoldS).params.angleOfAttack =
      stAltHoldS.params.angleOfAttack +
        (min 15 (max (-5)
          ((stAltHoldS.params.weight * GRAVITY /
              (0.5 * currentAirDensity stAltHoldS.altitude *
                (stAltHoldS.params.velocity + stAltHoldS.params.headWind) ^ 2 *
                (stAltHoldS.params.wingSpan * stAltHoldS.params.chordLength)) -
            (if stAltHoldS.params.wingType = .airbus then 0.45 else 0.2)) / (2 * PI) *
            (180 / PI))) -
          stAltHoldS.params.angleOfAttack) * 0.02 :=
  altitude_hold_control_law (1/60) stAltHoldS rfl rfl
    (by norm_num [computeResults, stAltHoldS, pAltHoldS, liftCoefficient, baseCl,
      currentAirDensity, SEA_LEVEL_AIR_DENSITY, GRAVITY, PI, max_def])
    (by norm_num [stAltHoldS, pAltHoldS])

/-- C3 counterexample: at the symmetric-wing flying state `stAltHoldS`,
which satisfies all activation conditions of the claim, the angle of
attack after one tick differs from the value prescribed by the claimed
formula with the per-wing-type baseline offset (0.0 for the symmetric
wing): the code uses the offset 0.2 for every non-airbus wing type. -/
theorem altitude_hold_offset_counterexample :
    (computeResults pAltHoldS (currentAirDensity 0) 0).isFlying = true ∧
    pAltHoldS.velocity + pAltHoldS.headWind > 10 ∧
    (loopTick (1/60) stAltHoldS).params.angleOfAttack ≠
      pAltHoldS.angleOfAttack +
        (min 15 (max (-5)
          ((pAltHoldS.weight * GRAVITY /
              (0.5 * currentAirDensity 0 *
                (pAltHoldS.velocity + pAltHoldS.headWind) ^ 2 *
                (pAltHoldS.wingSpan * pAltHoldS.chordLength)) -
            baseCl pAltHoldS.wingType) / (2 * PI) * (180 / PI))) -
          pAltHoldS.angleOfAttack) * 0.02 := by
  refine ⟨?_, ?_, ?_⟩
  · norm_num [computeResults, pAltHoldS, liftCoefficient, baseCl,
      currentAirDensity, SEA_LEVEL_AIR_DENSITY, GRAVITY, PI, max_def]
  · norm_num [pAltHoldS]
  · have hne : ¬ (WingType.symmetric = WingType.airbus) := by
      intro hc
      cases hc
    norm_num [loopTick, altHoldAdjust, computeResults, updateAltitude, landingAdjust,
      stAltHoldS, pAltHoldS, liftCoefficient, baseCl, currentAirDensity,
      SEA_LEVEL_AIR_DENSITY, GRAVITY, PI, max_def, min_def, hne]

/-- C8 counterexample: with baseline offset 0.45 the lift coefficient is 0
at both 21 and 22 degrees (the post-stall factor hits its floor), so the
coefficient is not strictly decreasing over the whole range 16 < a1 < a2
as the claim states. -/
theorem post_stall_decay_counterexample :
    (16:ℚ) < 21 ∧ (21:ℚ) < 22 ∧
    ¬ liftCoefficient { defaultParams with angleOfAttack := 22 } <
        liftCoefficient { defaultParams with angleOfAttack := 21 } := by
  refine ⟨by norm_num, by norm_num, ?_⟩
  norm_num [liftCoefficient, defaultParams, baseCl, max_def, PI]

/-- C8 (amended): with baseline offset 0.45 the lift coefficient is strictly
decreasing in the angle of attack on the post-stall interval (16, 21], and
it reaches exactly 0 at 21 degrees (and stays 0 beyond, as the
counterexample shows). -/
theorem post_stall_decay :
    (∀ a1 a2 : ℚ, 16 < a1 → a1 < a2 → a2 ≤ 21 →
      liftCoefficient { defaultParams with angleOfAttack := a2 } <
        liftCoefficient { defaultParams with angleOfAttack := a1 }) ∧
    liftCoefficient { defaultParams with angleOfAttack := 21 } = 0 := by
  constructor
  · intro a1 a2 h16 h12 h21
    have h16b : (16:ℚ) < a2 := lt_trans h16 h12
    have hPIpos : (0:ℚ) < PI := by norm_num [PI]
    simp only [liftCoefficient, defaultParams, baseCl]
    rw [if_pos (show a1 > 16 from h16), if_pos (show a2 > 16 from h16b)]
    have hsf2 : (0:ℚ) ≤ 1 - (a2 - 16) * 0.2 := by linarith
    have hsf1 : (0:ℚ) ≤ 1 - (a1 - 16) * 0.2 := by linarith
    rw [max_eq_right hsf1, max_eq_right hsf2]
    have hraw1 : (0:ℚ) < 2 * PI * (a1 * PI / 180) + 0.45 := by
      nlinarith [mul_pos (mul_pos hPIpos hPIpos) (show (0:ℚ) < a1 by linarith)]
    have hraw2 : (0:ℚ) < 2 * PI * (a2 * PI / 180) + 0.45 := by
      nlinarith [mul_pos (mul_pos hPIpos hPIpos) (show (0:ℚ) < a2 by linarith)]
    rw [max_eq_right (mul_nonneg (le_of_lt hraw1) hsf1),
      max_eq_right (mul_nonneg (le_of_lt hraw2) hsf2)]
    have hkey : 0 < (a2 - a1) * (PI * PI / 90 * (a1 + a2 - 21) + 0.45) :=
      mul_pos (sub_pos.mpr h12)
        (add_pos (mul_pos (div_pos (mul_pos hPIpos hPIpos) (by norm_num))
          (by linarith)) (by norm_num))
    nlinarith [hkey]
  · norm_num [liftCoefficient, defaultParams, baseCl, max_def, PI]

/-- Witness for C8: the strict decrease between 17 and 18 degrees. -/
theorem post_stall_decay_witness :
    ((16:ℚ) < 17 ∧ (17:ℚ) < 18 ∧ (18:ℚ) ≤ 21) ∧
    liftCoefficient { defaultParams with angleOfAttack := 18 } <
      liftCoefficient { defaultParams with angleOfAttack := 17 } :=
  ⟨⟨by norm_num, by norm_num, by norm_num⟩,
   post_stall_decay.1 17 18 (by norm_num) (by norm_num) (by norm_num)⟩

end AeroSim
